import Mathlib

/-!
Verification development for `dclab/rtdc_dataset/config.py`.

The Python module is shallowly embedded below.  Python strings are Lean
strings (operated on through their character lists); Python's `str.lower` /
`str.upper` are modelled by the ASCII case maps of `Char.toLower` /
`Char.toUpper` applied characterwise.  Python `float` values are modelled as
exact rationals; `None` is the `Value.vNone` sentinel.  Exceptions are
modelled with `Except`, and the warnings emitted through `warnings.warn` are
returned as explicit lists of warning kinds.  The schema registry
(`dclab.definitions`, imported as `dfn` in the source) is an external
collaborator of the module and is modelled as a structure of the functions
the source consults.
-/

/-- Characterwise model of Python `str.lower` (config.py normalizes keys with
`key.lower()`).  Restricted to the ASCII case map. -/
def pyLower (s : String) : String := ⟨s.data.map Char.toLower⟩

/-- Characterwise model of Python `str.upper`, restricted to the ASCII case
map. -/
def pyUpper (s : String) : String := ⟨s.data.map Char.toUpper⟩

/-- Python `str.strip()` whitespace set: space, tab, newline, carriage
return, vertical tab, form feed. -/
def isPySpace (c : Char) : Bool :=
  c == ' ' || c == '\t' || c == '\n' || c == '\r' ||
    c == Char.ofNat 11 || c == Char.ofNat 12

/-- Drop characters satisfying `p` from both ends of a character list
(the behaviour of Python `str.strip`). -/
def stripWhile (p : Char → Bool) (l : List Char) : List Char :=
  ((l.dropWhile p).reverse.dropWhile p).reverse

/-- Model of Python `str.strip()` (no argument: strip whitespace). -/
def pyStrip (s : String) : String := ⟨stripWhile isPySpace s.data⟩

/-- Model of Python `str.strip(chars)`: strip any of the given characters
from both ends. -/
def stripAny (cs : List Char) (s : String) : String :=
  ⟨stripWhile (cs.contains ·) s.data⟩

/-- The single-quote character, `chr(39)`. -/
def squote : Char := Char.ofNat 39

/-- The double-quote character, `chr(34)`. -/
def dquote : Char := Char.ofNat 34

/-- Model of `line.split("#")[0]`: the part of the string before the first
occurrence of `c` (the whole string when `c` does not occur). -/
def beforeChar (c : Char) (s : String) : String := ⟨s.data.takeWhile (· != c)⟩

/-- Model of Python `str.startswith`. -/
def startsB (s pre : String) : Bool := pre.data.isPrefixOf s.data

/-- Model of Python `str.endswith`. -/
def endsB (s suf : String) : Bool := suf.data.isSuffixOf s.data

/-- Model of Python `str.replace(a, b)` for single characters. -/
def replaceChar (a b : Char) (s : String) : String :=
  ⟨s.data.map fun c => if c == a then b else c⟩

/-- Model of Python `str.split(sep)` for a single-character separator:
splits at every occurrence, keeping empty pieces (`"".split(",") == [""]`). -/
def splitOnChar (sep : Char) : List Char → List (List Char)
  | [] => [[]]
  | c :: cs =>
    let r := splitOnChar sep cs
    if c == sep then [] :: r
    else
      match r with
      | [] => [[c]]
      | h :: t => (c :: h) :: t

/-- Digits-to-number accumulator used by the decimal parser. -/
def digitsToNat (ds : List Char) : Nat :=
  ds.foldl (fun n c => 10 * n + (c.toNat - 48)) 0

/-- Model of Python `float(s)` restricted to plain decimal literals
(optional surrounding whitespace, optional sign, digits with an optional
single decimal point).  Exponents, `inf`/`nan` and digit-group underscores
are not modelled; on any other input the parser fails, modelling the
`ValueError` raised by `float`. -/
def pyFloat? (s : String) : Option Rat :=
  let cs := stripWhile isPySpace s.data
  let sgncs : Bool × List Char :=
    match cs with
    | '-' :: t => (true, t)
    | '+' :: t => (false, t)
    | t => (false, t)
  let intp := sgncs.2.takeWhile Char.isDigit
  let rest := sgncs.2.dropWhile Char.isDigit
  let mag : Option Rat :=
    match rest with
    | [] => if intp.isEmpty then none else some (mkRat (digitsToNat intp) 1)
    | '.' :: frac =>
      if frac.all Char.isDigit && !(intp.isEmpty && frac.isEmpty) then
        some (mkRat (digitsToNat intp * 10 ^ frac.length + digitsToNat frac)
          (10 ^ frac.length))
      else none
    | _ => none
  mag.map fun q => if sgncs.1 then -q else q

/-- Zero-padded 12-digit decimal rendering of a natural number below
`10 ^ 12` (the fractional part of `"{:.12f}".format`). -/
def natPad12 (n : Nat) : String :=
  ⟨List.replicate (12 - (Nat.toDigits 10 n).length) '0' ++ Nat.toDigits 10 n⟩

/-- `"{:.12f}"` on a nonnegative rational `q`: round to 12 fractional
digits — the floor of `q * 10 ^ 12 + 1 / 2`, written in pure natural
arithmetic (Python rounds ties to even; the claims only exercise exactly
representable values, for which the half-up floor agrees) — and print
`whole.fraction`. -/
def formatFixed12abs (q : Rat) : String :=
  let n : Nat := (q.num.toNat * 10 ^ 12 * 2 + q.den) / (2 * q.den)
  toString (n / 10 ^ 12) ++ "." ++ natPad12 (n % 10 ^ 12)

/-- Model of Python `"{:.12f}".format(val)` (config.py line 524). -/
def formatFixed12 (q : Rat) : String :=
  if q < 0 then "-" ++ formatFixed12abs (-q) else formatFixed12abs q

/-- The Python values handled by config.py: the `None` sentinel, booleans,
integers, floats (as exact rationals), strings and (nested) lists. -/
inductive Value where
  | vNone
  | vBool (b : Bool)
  | vInt (n : Int)
  | vFloat (q : Rat)
  | vStr (s : String)
  | vList (l : List Value)

mutual

/-- Decidable equality on `Value` (written out because `deriving` does not
handle the nested `List Value`). -/
def Value.deq : (a b : Value) → Decidable (a = b)
  | .vNone, .vNone => isTrue rfl
  | .vBool x, .vBool y =>
    match decEq x y with
    | isTrue h => isTrue (congrArg Value.vBool h)
    | isFalse h => isFalse fun e => h (Value.vBool.inj e)
  | .vInt x, .vInt y =>
    match decEq x y with
    | isTrue h => isTrue (congrArg Value.vInt h)
    | isFalse h => isFalse fun e => h (Value.vInt.inj e)
  | .vFloat x, .vFloat y =>
    match decEq x y with
    | isTrue h => isTrue (congrArg Value.vFloat h)
    | isFalse h => isFalse fun e => h (Value.vFloat.inj e)
  | .vStr x, .vStr y =>
    match decEq x y with
    | isTrue h => isTrue (congrArg Value.vStr h)
    | isFalse h => isFalse fun e => h (Value.vStr.inj e)
  | .vList x, .vList y =>
    match Value.deqList x y with
    | isTrue h => isTrue (congrArg Value.vList h)
    | isFalse h => isFalse fun e => h (Value.vList.inj e)
  | .vNone, .vBool _ => isFalse nofun
  | .vNone, .vInt _ => isFalse nofun
  | .vNone, .vFloat _ => isFalse nofun
  | .vNone, .vStr _ => isFalse nofun
  | .vNone, .vList _ => isFalse nofun
  | .vBool _, .vNone => isFalse nofun
  | .vBool _, .vInt _ => isFalse nofun
  | .vBool _, .vFloat _ => isFalse nofun
  | .vBool _, .vStr _ => isFalse nofun
  | .vBool _, .vList _ => isFalse nofun
  | .vInt _, .vNone => isFalse nofun
  | .vInt _, .vBool _ => isFalse nofun
  | .vInt _, .vFloat _ => isFalse nofun
  | .vInt _, .vStr _ => isFalse nofun
  | .vInt _, .vList _ => isFalse nofun
  | .vFloat _, .vNone => isFalse nofun
  | .vFloat _, .vBool _ => isFalse nofun
  | .vFloat _, .vInt _ => isFalse nofun
  | .vFloat _, .vStr _ => isFalse nofun
  | .vFloat _, .vList _ => isFalse nofun
  | .vStr _, .vNone => isFalse nofun
  | .vStr _, .vBool _ => isFalse nofun
  | .vStr _, .vInt _ => isFalse nofun
  | .vStr _, .vFloat _ => isFalse nofun
  | .vStr _, .vList _ => isFalse nofun
  | .vList _, .vNone => isFalse nofun
  | .vList _, .vBool _ => isFalse nofun
  | .vList _, .vInt _ => isFalse nofun
  | .vList _, .vFloat _ => isFalse nofun
  | .vList _, .vStr _ => isFalse nofun

/-- Decidable equality on lists of `Value`. -/
def Value.deqList : (a b : List Value) → Decidable (a = b)
  | [], [] => isTrue rfl
  | [], _ :: _ => isFalse nofun
  | _ :: _, [] => isFalse nofun
  | x :: xs, y :: ys =>
    match Value.deq x y with
    | isTrue h1 =>
      match Value.deqList xs ys with
      | isTrue h2 => isTrue (by rw [h1, h2])
      | isFalse h2 => isFalse fun e => h2 (List.cons.inj e).2
    | isFalse h1 => isFalse fun e => h1 (List.cons.inj e).1

end

instance : DecidableEq Value := Value.deq

/-- `isinstance(value, str) and len(value) == 0` (config.py line 58). -/
def isEmptyStr : Value → Bool
  | .vStr s => s.data.isEmpty
  | _ => false

/-- Model of the test `len(str(val)) != 0` from `load_from_file`
(config.py line 436), as an emptiness test: among the embedded values,
Python `str()` returns the empty string exactly for the empty string
value (`str` of `None`, booleans, numbers and lists is never empty). -/
def pyStrEmpty : Value → Bool
  | .vStr s => s.data.isEmpty
  | _ => false

/-- The kinds of warnings the module can emit, one per `warnings.warn` call
site.  The first three correspond to the `...Warning` classes raised in
`ConfigurationDict.__setitem__`; the rest to the call sites inside
`verify_section_key` (`deprecatedLimitEventsAuto` is the plain
`UserWarning` for the legacy "limit events auto" key). -/
inductive WarningKind where
  | wrongConfigurationType
  | emptyConfigurationKey
  | badUserConfigurationValue
  | badUserConfigurationKey
  | deprecatedSection
  | unknownFilterRangeFeature
  | deprecatedLimitEventsAuto
  | unknownFilteringKey
  | unknownSection
  | unknownKeyInSection
deriving DecidableEq

/-- The schema registry `dclab.definitions` (imported as `dfn`), an external
collaborator of config.py, modelled by the functions the module consults:
`config_key_exists`, `scalar_feature_exists`, the set `config_keys` of known
section names, `get_config_value_type` (as the `isinstance` test of the
declared type, `none` when no type is declared), `get_config_value_func`
(the per-key coercion function) and the key names (`item[0]`) of
`CFG_ANALYSIS["filtering"]`. -/
structure SchemaRegistry where
  config_key_exists : String → String → Bool
  scalar_feature_exists : String → Bool
  config_keys : List String
  get_config_value_type : String → String → Option (Value → Bool)
  get_config_value_func : String → String → Value → Value
  CFG_ANALYSIS_filtering : List String

/-- `typ = dfn.get_config_value_type(section, key)`; `true` when `typ is
None` or `isinstance(value, typ)` holds (config.py lines 75–76). -/
def typeCheckOk (reg : SchemaRegistry) (s k : String) (v : Value) : Bool :=
  match reg.get_config_value_type s k with
  | some pred => pred v
  | none => true

/-- `verify_section_key` (config.py lines 335–388): decides validity of a
section/key pair and returns the warnings emitted.  The source counts
warnings (`wcount`) and returns `wcount == 0`; here the pair of the validity
bit and the warning list is returned directly.  The `sys.version_info[0] !=
2` guard on the "limit events auto" warning is the constant `True` on any
Python 3 interpreter and is modelled as such.  Keys are strings in this
embedding, so the `isinstance(key, str)` test of the "user" branch is
constant `True`. -/
def verify_section_key (reg : SchemaRegistry) (s key : String) :
    Bool × List WarningKind :=
  if reg.config_key_exists s key then (true, [])
  else if s == "plotting" || s == "analysis" then
    (false, [.deprecatedSection])
  else if s == "filtering" then
    if endsB key " min" || endsB key " max" then
      if reg.scalar_feature_exists ⟨key.data.take (key.data.length - 4)⟩ then
        (true, [])
      else (false, [.unknownFilterRangeFeature])
    else if key == "limit events auto" then
      (false, [.deprecatedLimitEventsAuto])
    else (false, [.unknownFilteringKey])
  else if s == "user" then
    if (pyStrip key).data.isEmpty then (false, [.badUserConfigurationKey])
    else (true, [])
  else if !(reg.config_keys.contains s) then (false, [.unknownSection])
  else (false, [.unknownKeyInSection])

/-- Lookup in an association list (the backing store of a Python dict en
route through `UserDict`): first binding of the key, if any. -/
def alGet {α : Type} : List (String × α) → String → Option α
  | [], _ => none
  | (k, v) :: t, key => if k = key then some v else alGet t key

/-- Insertion-order-preserving store of a Python dict: updating an existing
key keeps its position, a new key is appended. -/
def alSet {α : Type} : List (String × α) → String → α → List (String × α)
  | [], key, v => [(key, v)]
  | (k, w) :: t, key, v =>
    if k = key then (k, v) :: t else (k, w) :: alSet t key v

/-- Removal of a key from the insertion-ordered store (Python `del`). -/
def alErase {α : Type} : List (String × α) → String → List (String × α)
  | [], _ => []
  | (k, w) :: t, key => if k = key then t else (k, w) :: alErase t key

/-- `ConfigurationDict` (config.py lines 35–129): a case-insensitive
dictionary that is section-aware.  `sect` is the `section` attribute
(`none` models Python `None`); `data` is the underlying insertion-ordered
mapping, whose keys are always stored normalized. -/
structure ConfigurationDict where
  sect : Option String
  data : List (String × Value)
deriving DecidableEq

/-- `ConfigurationDict._k` (config.py lines 95–98): `key.lower() if
isinstance(key, str) else key`.  The dictionary operations below take
string keys and apply the string case of this normalization (`pyLower`). -/
def ConfigurationDict._k : Value → Value
  | .vStr s => .vStr (pyLower s)
  | v => v

/-- Truthiness of the `section` attribute (`if self.section:`): `None` and
the empty string are falsy. -/
def sectTruthy : Option String → Bool
  | none => false
  | some s => !s.data.isEmpty

/-- `ConfigurationDict.__getitem__` (config.py lines 48–50): lookup under
the normalized key; `none` models the `KeyError` on a missing key. -/
def ConfigurationDict.getitem (d : ConfigurationDict) (key : String) : Option Value :=
  alGet d.data (pyLower key)

/-- `ConfigurationDict.__contains__` (config.py lines 91–93). -/
def ConfigurationDict.containsKey (d : ConfigurationDict) (key : String) : Bool :=
  (alGet d.data (pyLower key)).isSome

/-- `ConfigurationDict.__delitem__` (config.py lines 87–89): removal under
the normalized key; `none` models the `KeyError` on a missing key. -/
def ConfigurationDict.delitem (d : ConfigurationDict) (key : String) :
    Option ConfigurationDict :=
  if (alGet d.data (pyLower key)).isSome then
    some { d with data := alErase d.data (pyLower key) }
  else none

/-- The unchecked path of `ConfigurationDict.__setitem__` (section falsy):
only the `value is None` test applies; `key` is already normalized. -/
def ConfigurationDict.setitemUnchecked (d : ConfigurationDict) (k : String)
    (value : Value) : ConfigurationDict × List WarningKind :=
  if value = Value.vNone then (d, [.badUserConfigurationValue])
  else ({ d with data := alSet d.data k value }, [])

/-- The checked path of `ConfigurationDict.__setitem__` (config.py lines
52–85, section `s` truthy, `k` already normalized): validate the key, then
refuse empty strings and the `None` sentinel, then warn on a wrong runtime
type and store the coerced value. -/
def ConfigurationDict.setitemChecked (reg : SchemaRegistry) (d : ConfigurationDict)
    (s k : String) (value : Value) : ConfigurationDict × List WarningKind :=
  let r0 := verify_section_key reg s k
  let r1 : Bool × List WarningKind :=
    if r0.1 && isEmptyStr value then (false, r0.2 ++ [.emptyConfigurationKey])
    else r0
  let r2 : Bool × List WarningKind :=
    if value = Value.vNone then (false, r1.2 ++ [.badUserConfigurationValue])
    else r1
  if r2.1 then
    let wt : List WarningKind :=
      if typeCheckOk reg s k value then [] else [.wrongConfigurationType]
    ({ d with data := alSet d.data k (reg.get_config_value_func s k value) },
      r2.2 ++ wt)
  else (d, r2.2)

/-- `ConfigurationDict.__setitem__` (config.py lines 52–85): normalize the
key, dispatch on the truthiness of the section attribute, and return the
new dictionary together with the warnings emitted. -/
def ConfigurationDict.setitem (reg : SchemaRegistry) (d : ConfigurationDict)
    (key : String) (value : Value) : ConfigurationDict × List WarningKind :=
  match d.sect with
  | some s =>
    if s.data.isEmpty then d.setitemUnchecked (pyLower key) value
    else d.setitemChecked reg s (pyLower key) value
  | none => d.setitemUnchecked (pyLower key) value

/-- One step of `ConfigurationDict.update`: apply `__setitem__` for one
key/value pair and accumulate its warnings. -/
def ConfigurationDict.updateStep (reg : SchemaRegistry)
    (acc : ConfigurationDict × List WarningKind) (kv : String × Value) :
    ConfigurationDict × List WarningKind :=
  let r := acc.1.setitem reg kv.1 kv.2
  (r.1, acc.2 ++ r.2)

/-- `ConfigurationDict.update` (config.py lines 123–129): apply
`__setitem__` for every key of the argument, in iteration order,
accumulating the warnings. -/
def ConfigurationDict.update (reg : SchemaRegistry) (d : ConfigurationDict)
    (E : List (String × Value)) : ConfigurationDict × List WarningKind :=
  E.foldl (ConfigurationDict.updateStep reg) (d, [])

/-- Decidable equality of `Except` results, for evaluating the model on
concrete inputs. -/
def exceptDeq {ε α : Type} [DecidableEq ε] [DecidableEq α] :
    (a b : Except ε α) → Decidable (a = b)
  | .error x, .error y =>
    match decEq x y with
    | isTrue h => isTrue (congrArg Except.error h)
    | isFalse h => isFalse fun e => h (Except.error.inj e)
  | .ok x, .ok y =>
    match decEq x y with
    | isTrue h => isTrue (congrArg Except.ok h)
    | isFalse h => isFalse fun e => h (Except.ok.inj e)
  | .error _, .ok _ => isFalse nofun
  | .ok _, .error _ => isFalse nofun

instance {ε α : Type} [DecidableEq ε] [DecidableEq α] :
    DecidableEq (Except ε α) := exceptDeq

/-- The exceptions the embedded module can raise. `keyLookup` is the
`KeyError` of a missing dictionary entry (carrying the normalized key);
`missingDefault` is the `KeyError` raised by
`Configuration._init_default_filter_values`; `unboundLocal` is the
`UnboundLocalError` when `load_from_file` reads `sec` before any section
header; `noneUnpack` is the `TypeError` of unpacking the `None` returned by
`keyval_str2typ`; `valueError` is an uncaught `ValueError` from `float`. -/
inductive ConfigError where
  | keyLookup (k : String)
  | missingDefault (k : String)
  | unboundLocal
  | noneUnpack
  | valueError
deriving DecidableEq

/-- `Configuration` (config.py lines 132–309): `cfgData` is the outer
`ConfigurationDict` `self._cfg` (section `None`, so stores are unchecked and
only lowercase the section name); its values are the per-section
dictionaries. -/
structure Configuration where
  cfgData : List (String × ConfigurationDict)
  disable_checks : Bool
deriving DecidableEq

/-- `Configuration.__contains__` (config.py lines 178–179): membership in
the outer dictionary, under the normalized section name. -/
def Configuration.containsSec (c : Configuration) (s : String) : Bool :=
  (alGet c.cfgData (pyLower s)).isSome

/-- The section-provisioning assignment `self._cfg[sec] =
ConfigurationDict(section=section)` with `section = None if
self.disable_checks else sec` (config.py lines 184–185 and 307–308).  The
outer dictionary has no section, so the store just lowercases the name. -/
def Configuration.provision (c : Configuration) (s : String) : Configuration :=
  let fresh : ConfigurationDict := ⟨if c.disable_checks then none else some s, []⟩
  { c with cfgData := alSet c.cfgData (pyLower s) fresh }

/-- `Configuration.__getitem__` (config.py lines 181–187): an absent
section that is schema-known or `"user"` is auto-provisioned empty; the
lookup then returns the section dictionary, or raises `KeyError` on the
normalized name. -/
def Configuration.getitem (reg : SchemaRegistry) (c : Configuration)
    (s : String) : Except ConfigError (ConfigurationDict × Configuration) :=
  let c' := if !c.containsSec s && (reg.config_keys.contains s || s == "user")
    then c.provision s else c
  match alGet c'.cfgData (pyLower s) with
  | some d => .ok (d, c')
  | none => .error (.keyLookup (pyLower s))

/-- The statement `self[sec][k] = v` on a `Configuration`: `__getitem__`
followed by an in-place `__setitem__` on the section dictionary (modelled
as a write-back into the outer store under the normalized name). -/
def Configuration.setKV (reg : SchemaRegistry) (c : Configuration)
    (s k : String) (v : Value) :
    Except ConfigError (Configuration × List WarningKind) :=
  match c.getitem reg s with
  | .error e => .error e
  | .ok (d, c') =>
    let r := d.setitem reg k v
    .ok ({ c' with cfgData := alSet c'.cfgData (pyLower s) r.1 }, r.2)

/-- `Configuration._init_default_filter_values` (config.py lines 208–230):
set the five hard-coded "filtering" defaults, then raise `KeyError` on the
first key of `dfn.CFG_ANALYSIS["filtering"]` that is not contained in the
resulting "filtering" section. -/
def Configuration._init_default_filter_values (reg : SchemaRegistry)
    (c : Configuration) : Except ConfigError (Configuration × List WarningKind) :=
  match c.setKV reg "filtering" "remove invalid events" (.vBool false) with
  | .error e => .error e
  | .ok (c, w1) =>
    match c.setKV reg "filtering" "enable filters" (.vBool true) with
    | .error e => .error e
    | .ok (c, w2) =>
      match c.setKV reg "filtering" "limit events" (.vInt 0) with
      | .error e => .error e
      | .ok (c, w3) =>
        match c.setKV reg "filtering" "polygon filters" (.vList []) with
        | .error e => .error e
        | .ok (c, w4) =>
          match c.setKV reg "filtering" "hierarchy parent" (.vStr "none") with
          | .error e => .error e
          | .ok (c, w5) =>
            match c.getitem reg "filtering" with
            | .error e => .error e
            | .ok (filt, c) =>
              match reg.CFG_ANALYSIS_filtering.find?
                  (fun item => !(filt.containsKey item)) with
              | some item => .error (.missingDefault item)
              | none => .ok (c, w1 ++ w2 ++ w3 ++ w4 ++ w5)

/-- One step of `Configuration.update` (config.py lines 303–309): for one
section of the argument, provision the target section if absent
(schema-checked unless checks are disabled), then delegate the key-level
merge to that section dictionary's `update`. -/
def Configuration.updateStep (reg : SchemaRegistry)
    (acc : Configuration × List WarningKind)
    (se : String × List (String × Value)) :
    Configuration × List WarningKind :=
  let c1 := if !acc.1.containsSec se.1 then acc.1.provision se.1 else acc.1
  match alGet c1.cfgData (pyLower se.1) with
  | some d =>
    let r := d.update reg se.2
    ({ c1 with cfgData := alSet c1.cfgData (pyLower se.1) r.1 }, acc.2 ++ r.2)
  | none => (c1, acc.2)

/-- `Configuration.update` (config.py lines 303–309) as the fold of
`updateStep` over the sections of the argument. -/
def Configuration.update (reg : SchemaRegistry) (c : Configuration)
    (newcfg : List (String × List (String × Value))) :
    Configuration × List WarningKind :=
  newcfg.foldl (Configuration.updateStep reg) (c, [])

/-- `keyval_str2typ` (config.py lines 441–495): heuristic conversion of a
raw string value to its presumed type.  `.ok none` models the implicit
`return None` when the stripped variable or value is empty;
`.error .valueError` models an uncaught `ValueError` from `float` inside
the list branch. -/
def keyval_str2typ (reg : SchemaRegistry) (var : String) (val : Value) :
    Except ConfigError (Option (String × Value)) :=
  match val with
  | .vStr sval =>
    let v := pyLower (pyStrip var)
    let s := pyStrip sval
    if v.data.length != 0 && s.data.length != 0 then
      if startsB s "[" && endsB s "]" then
        if (stripAny ['[', ']', ','] s).data.isEmpty then
          .ok (some (v, .vList []))
        else
          match (splitOnChar ',' (stripAny ['[', ']', ','] s).data).mapM
              (fun piece => pyFloat? ⟨piece⟩) with
          | some qs => .ok (some (v, .vList (qs.map Value.vFloat)))
          | none => .error .valueError
      else if pyLower s == "true" || pyLower s == "y" then
        .ok (some (v, .vBool true))
      else if pyLower s == "false" || pyLower s == "n" then
        .ok (some (v, .vBool false))
      else if [squote, dquote].contains (s.data.headD ' ') &&
          [squote, dquote].contains (s.data.getLastD ' ') then
        .ok (some (v, .vStr (pyStrip (stripAny [dquote] (stripAny [squote] s)))))
      else if reg.scalar_feature_exists s then
        .ok (some (v, .vStr s))
      else
        match pyFloat? (replaceChar ',' '.' s) with
        | some q => .ok (some (v, .vFloat q))
        | none => .ok (some (v, .vStr s))
    else .ok none
  | _ => .ok (some (pyStrip var, val))

/-- The running state of the `load_from_file` loop: the configuration
built so far and the current section variable `sec` (`none` before any
section header has been seen, modelling the unbound local). -/
structure LoadState where
  cfg : List (String × ConfigurationDict)
  currentSec : Option String
deriving DecidableEq

/-- The `key = value` part of a line: the text before the first `=`. -/
def lineVarRaw (line : String) : String := ⟨line.data.takeWhile (· != '=')⟩

/-- The text after the first `=` of a line. -/
def lineValRaw (line : String) : String :=
  ⟨(line.data.dropWhile (· != '=')).drop 1⟩

/-- `val.strip("' ").strip('" ').strip()` (config.py line 425). -/
def lineVal (line : String) : String :=
  pyStrip (stripAny [dquote, ' '] (stripAny [squote, ' '] (lineValRaw line)))

/-- The store `cfg[sec][var] = val` of `load_from_file` (config.py lines
436–437), guarded by `len(var) != 0 and len(str(val)) != 0`.  The inner
dictionaries of the parser have no section, so the store is unchecked. -/
def loadStore (reg : SchemaRegistry) (st : LoadState) (sec var : String)
    (v : Value) : Except ConfigError LoadState :=
  if var.data.length != 0 && !(pyStrEmpty v) then
    match alGet st.cfg sec with
    | some d => .ok { st with cfg := alSet st.cfg sec (d.setitem reg var v).1 }
    | none => .error (.keyLookup sec)
  else .ok st

/-- One iteration of the `load_from_file` line loop (config.py lines
409–437). -/
def processLine (reg : SchemaRegistry) (st : LoadState) (rawLine : String) :
    Except ConfigError LoadState :=
  let line := pyStrip (beforeChar '#' rawLine)
  if line.data.isEmpty then .ok st
  else if startsB line "[" && endsB line "]" then
    let sec := pyLower ⟨(line.data.drop 1).dropLast⟩
    let cfg := if (alGet st.cfg sec).isSome then st.cfg
      else alSet st.cfg sec ⟨none, []⟩
    .ok ⟨cfg, some sec⟩
  else if !(line.data.contains '=') then .ok st
  else
    let var := pyLower (pyStrip (lineVarRaw line))
    let val := lineVal line
    if val.data.isEmpty then .ok st
    else
      match st.currentSec with
      | none => .error .unboundLocal
      | some sec =>
        if reg.config_key_exists sec var then
          loadStore reg st sec var (reg.get_config_value_func sec var (.vStr val))
        else
          match keyval_str2typ reg var (.vStr val) with
          | .error e => .error e
          | .ok none => .error .noneUnpack
          | .ok (some (var2, v2)) => loadStore reg st sec var2 v2

/-- The `for line in code` loop of `load_from_file`. -/
def loadLoop (reg : SchemaRegistry) :
    LoadState → List String → Except ConfigError LoadState
  | st, [] => .ok st
  | st, l :: ls =>
    match processLine reg st l with
    | .error e => .error e
    | .ok st' => loadLoop reg st' ls

/-- `load_from_file` (config.py lines 391–438), with the file contents given
as its list of lines (the file read itself is I/O and outside the model). -/
def load_from_lines (reg : SchemaRegistry) (lines : List String) :
    Except ConfigError (List (String × ConfigurationDict)) :=
  match loadLoop reg ⟨[], none⟩ lines with
  | .error e => .error e
  | .ok st => .ok st.cfg

/-- The `for f in files: self.update(load_from_file(f))` loop of
`Configuration.__init__` (config.py lines 175–176), each file given as its
list of lines. -/
def Configuration.loadFilesLoop (reg : SchemaRegistry) :
    Configuration × List WarningKind → List (List String) →
    Except ConfigError (Configuration × List WarningKind)
  | acc, [] => .ok acc
  | acc, f :: fs =>
    match load_from_lines reg f with
    | .error e => .error e
    | .ok parsed =>
      let r := Configuration.update reg acc.1
        (parsed.map fun p => (p.1, p.2.data))
      Configuration.loadFilesLoop reg (r.1, acc.2 ++ r.2) fs

/-- `Configuration.__init__` (config.py lines 133–176): bootstrap the
filtering defaults, apply the `cfg` dictionary, then load each file (given
here as its list of lines) in order. -/
def Configuration.construct (reg : SchemaRegistry) (files : List (List String))
    (cfg : List (String × List (String × Value))) (disable_checks : Bool) :
    Except ConfigError (Configuration × List WarningKind) :=
  match Configuration._init_default_filter_values reg ⟨[], disable_checks⟩ with
  | .error e => .error e
  | .ok (c1, ws1) =>
    let r2 := c1.update reg cfg
    Configuration.loadFilesLoop reg (r2.1, ws1 ++ r2.2) files

/-- `Configuration.copy` (config.py lines 232–234): rebuild from a deep
copy of the section map, forwarding neither `files` nor `disable_checks`. -/
def Configuration.copy (reg : SchemaRegistry) (c : Configuration) :
    Except ConfigError (Configuration × List WarningKind) :=
  Configuration.construct reg [] (c.cfgData.map fun p => (p.1, p.2.data)) false

mutual

/-- The value-to-string part of `keyval_typ2str` (config.py lines 519–526):
lists are bracketed comma-space joins of their recursively formatted
elements, floats print with 12 fractional digits, everything else through
`"{}".format`. -/
def keyval_val2str : Value → String
  | .vList l => "[" ++ keyval_val2strList l ++ "]"
  | .vFloat q => formatFixed12 q
  | .vStr s => s
  | .vBool b => if b then "True" else "False"
  | .vInt n => toString n
  | .vNone => "None"

/-- `", ".join` of the recursively formatted list elements. -/
def keyval_val2strList : List Value → String
  | [] => ""
  | [v] => keyval_val2str v
  | v :: w :: t => keyval_val2str v ++ ", " ++ keyval_val2strList (w :: t)

end

/-- `keyval_typ2str` (config.py lines 498–527): strip the variable name and
format the value. -/
def keyval_typ2str (var : String) (val : Value) : String × String :=
  (pyStrip var, keyval_val2str val)

/-- The lines that an iteration of the `load_from_file` loop passes over
without touching its state: lines empty after comment and whitespace
stripping, non-header lines without an `=` separator, and key lines whose
value is empty after quote/whitespace stripping. -/
def droppedLine (rawLine : String) : Bool :=
  let line := pyStrip (beforeChar '#' rawLine)
  line.data.isEmpty ||
    (!(startsB line "[" && endsB line "]") &&
      (!(line.data.contains '=') ||
        (line.data.contains '=' && (lineVal line).data.isEmpty)))

/-- An empty schema registry: no known keys, features or sections. -/
def regEmpty : SchemaRegistry :=
  ⟨fun _ _ => false, fun _ => false, [], fun _ _ => none, fun _ _ v => v, []⟩

/-- The five hard-coded "filtering" default keys of
`Configuration._init_default_filter_values`, in assignment order. -/
def defaultFilterKeys : List String :=
  ["remove invalid events", "enable filters", "limit events",
   "polygon filters", "hierarchy parent"]

/-- The "filtering" section produced by the default bootstrapping. -/
def defaultFilterEntries : List (String × Value) :=
  [("remove invalid events", .vBool false), ("enable filters", .vBool true),
   ("limit events", .vInt 0), ("polygon filters", .vList []),
   ("hierarchy parent", .vStr "none")]

/-- A small registry resembling the real `dclab.definitions` on the names
the claims exercise: the filtering defaults and two "setup" keys exist,
"deform" is a scalar feature, coercions are the identity and no value types
are declared. -/
def regSane : SchemaRegistry :=
  ⟨fun s k => s == "filtering" && defaultFilterKeys.contains k
      || s == "setup" && (k == "channel width" || k == "flow rate"),
   fun f => f == "deform", ["filtering", "setup"],
   fun _ _ => none, fun _ _ v => v, defaultFilterKeys⟩

/-- The `isinstance(value, float)` test, as a value predicate. -/
def isFloatValue : Value → Bool
  | .vFloat _ => true
  | _ => false

/-- A registry declaring `[setup]: channel width` with expected type
`float` and identity coercion. -/
def regTyped : SchemaRegistry :=
  ⟨fun s k => s == "setup" && k == "channel width", fun _ => false, ["setup"],
   fun s k => if s == "setup" && k == "channel width" then some isFloatValue
     else none,
   fun _ _ v => v, []⟩

/-- Observer for the nested read `cfg[section][key]` (`none` models the
`KeyError` paths): the value stored in `c` under section `s` and key `k`. -/
def Configuration.lookupKV (c : Configuration) (s k : String) : Option Value :=
  match alGet c.cfgData (pyLower s) with
  | some d => d.getitem k
  | none => none

/-- `regSane` with a filtering-analysis schema key the bootstrapped
defaults do not cover. -/
def regMissing : SchemaRegistry :=
  { regSane with CFG_ANALYSIS_filtering := ["bogus key"] }

/-- `Char.ofNat` of a valid codepoint evaluates back to it. -/
theorem charToNat_ofNat_valid (n : Nat) (h : n.isValidChar) :
    (Char.ofNat n).toNat = n := by
  rw [Char.ofNat, dif_pos h]; rfl

/-- Lowercasing after uppercasing is plain lowercasing (ASCII case maps). -/
theorem toLower_toUpper (c : Char) : c.toUpper.toLower = c.toLower := by
  simp only [Char.toUpper, Char.toLower]
  by_cases h : c.toNat ≥ 97 ∧ c.toNat ≤ 122
  · rw [if_pos h, charToNat_ofNat_valid _ (Or.inl (by omega))]
    rw [if_pos (by omega : c.toNat - 32 ≥ 65 ∧ c.toNat - 32 ≤ 90)]
    rw [if_neg (by omega : ¬(c.toNat ≥ 65 ∧ c.toNat ≤ 90))]
    rw [(by omega : c.toNat - 32 + 32 = c.toNat), Char.ofNat_toNat]
  · rw [if_neg h]

/-- The ASCII lowercase map is idempotent. -/
theorem toLower_toLower (c : Char) : c.toLower.toLower = c.toLower := by
  simp only [Char.toLower]
  by_cases h : c.toNat ≥ 65 ∧ c.toNat ≤ 90
  · rw [if_pos h, charToNat_ofNat_valid _ (Or.inl (by omega))]
    rw [if_neg (by omega : ¬(c.toNat + 32 ≥ 65 ∧ c.toNat + 32 ≤ 90))]
  · rw [if_neg h, if_neg h]

/-- `s.upper().lower() == s.lower()` in the embedding. -/
theorem pyLower_pyUpper (s : String) : pyLower (pyUpper s) = pyLower s :=
  congrArg String.mk (by
    show (s.data.map Char.toUpper).map Char.toLower = s.data.map Char.toLower
    rw [List.map_map]
    exact List.map_congr_left fun c _ => toLower_toUpper c)

/-- `s.lower().lower() == s.lower()` in the embedding. -/
theorem pyLower_pyLower (s : String) : pyLower (pyLower s) = pyLower s :=
  congrArg String.mk (by
    show (s.data.map Char.toLower).map Char.toLower = s.data.map Char.toLower
    rw [List.map_map]
    exact List.map_congr_left fun c _ => toLower_toLower c)

/-- Lookup only depends on the normalized key. -/
theorem ConfigurationDict.getitem_key_congr (d : ConfigurationDict)
    {k k' : String} (h : pyLower k' = pyLower k) :
    d.getitem k' = d.getitem k := by
  simp only [ConfigurationDict.getitem, h]

/-- Membership only depends on the normalized key. -/
theorem ConfigurationDict.containsKey_key_congr (d : ConfigurationDict)
    {k k' : String} (h : pyLower k' = pyLower k) :
    d.containsKey k' = d.containsKey k := by
  simp only [ConfigurationDict.containsKey, h]

/-- Deletion only depends on the normalized key. -/
theorem ConfigurationDict.delitem_key_congr (d : ConfigurationDict)
    {k k' : String} (h : pyLower k' = pyLower k) :
    d.delitem k' = d.delitem k := by
  simp only [ConfigurationDict.delitem, h]

/-- Assignment only depends on the normalized key. -/
theorem ConfigurationDict.setitem_key_congr (reg : SchemaRegistry)
    (d : ConfigurationDict) {k k' : String} (h : pyLower k' = pyLower k)
    (v : Value) : d.setitem reg k' v = d.setitem reg k v := by
  cases hs : d.sect <;> simp only [ConfigurationDict.setitem, hs, h]

/-- A valid verdict of `verify_section_key` comes with no warnings (every
warning site in the source also bumps `wcount`). -/
theorem verify_section_key_valid_no_warnings (reg : SchemaRegistry)
    (s k : String) (h : (verify_section_key reg s k).1 = true) :
    (verify_section_key reg s k).2 = [] := by
  unfold verify_section_key at h ⊢
  split_ifs at h ⊢ <;> simp_all

/-- C3: for every `ConfigurationDict` and string key `k`, lookup, membership
test, deletion and assignment through `k`, `k.upper()` and `k.lower()` all
address the same entry; more generally any two keys with the same
case-normalization are interchangeable in every operation; and the key
normalizer `_k` passes non-string keys through unmodified. -/
theorem C3_case_insensitive_keys (reg : SchemaRegistry)
    (d : ConfigurationDict) (k : String) (v : Value) :
    (d.getitem (pyUpper k) = d.getitem k ∧ d.getitem (pyLower k) = d.getitem k) ∧
    (d.containsKey (pyUpper k) = d.containsKey k ∧
      d.containsKey (pyLower k) = d.containsKey k) ∧
    (d.delitem (pyUpper k) = d.delitem k ∧ d.delitem (pyLower k) = d.delitem k) ∧
    (d.setitem reg (pyUpper k) v = d.setitem reg k v ∧
      d.setitem reg (pyLower k) v = d.setitem reg k v) ∧
    (∀ k' : String, pyLower k' = pyLower k →
      d.getitem k' = d.getitem k ∧ d.containsKey k' = d.containsKey k ∧
      d.delitem k' = d.delitem k ∧ d.setitem reg k' v = d.setitem reg k v) ∧
    (∀ w : Value, (∀ s : String, w ≠ .vStr s) → ConfigurationDict._k w = w) := by
  refine ⟨⟨?_, ?_⟩, ⟨?_, ?_⟩, ⟨?_, ?_⟩, ⟨?_, ?_⟩, ?_, ?_⟩
  · exact d.getitem_key_congr (pyLower_pyUpper k)
  · exact d.getitem_key_congr (pyLower_pyLower k)
  · exact d.containsKey_key_congr (pyLower_pyUpper k)
  · exact d.containsKey_key_congr (pyLower_pyLower k)
  · exact d.delitem_key_congr (pyLower_pyUpper k)
  · exact d.delitem_key_congr (pyLower_pyLower k)
  · exact ConfigurationDict.setitem_key_congr reg d (pyLower_pyUpper k) v
  · exact ConfigurationDict.setitem_key_congr reg d (pyLower_pyLower k) v
  · intro k' h
    exact ⟨d.getitem_key_congr h, d.containsKey_key_congr h,
      d.delitem_key_congr h, ConfigurationDict.setitem_key_congr reg d h v⟩
  · intro w hw
    cases w with
    | vStr s => exact absurd rfl (hw s)
    | vNone => rfl
    | vBool b => rfl
    | vInt n => rfl
    | vFloat q => rfl
    | vList l => rfl

/-- C3 witness: on a concrete dictionary, setting via `"AbC"` and reading
via `"ABC"` hits the entry normalized to `"abc"`, and `_k` leaves the
non-string key `7` unchanged. -/
theorem C3_witness :
    ConfigurationDict.getitem ⟨none, [("abc", .vInt 3)]⟩ "ABC" =
      ConfigurationDict.getitem ⟨none, [("abc", .vInt 3)]⟩ "AbC" ∧
    ConfigurationDict._k (.vInt 7) = .vInt 7 :=
  ⟨((C3_case_insensitive_keys regEmpty ⟨none, [("abc", .vInt 3)]⟩ "AbC"
      .vNone).2.2.2.2.1 "ABC" (by decide)).1,
   (C3_case_insensitive_keys regEmpty ⟨none, [("abc", .vInt 3)]⟩ "x"
      .vNone).2.2.2.2.2 (.vInt 7) (fun s => nofun)⟩

/-- C1 counterexample: the claim asserts that assigning an empty string to
a checked dictionary emits the empty-key warning for *every* key; for the
key `"bogus"`, which fails validation in the "filtering" section, the store
is indeed unchanged but the warning emitted is the unknown-filtering-key
warning and no empty-key warning appears. -/
theorem C1_counterexample :
    (ConfigurationDict.setitem regEmpty ⟨some "filtering", []⟩ "bogus"
      (.vStr "")).2 = [WarningKind.unknownFilteringKey] ∧
    WarningKind.emptyConfigurationKey ∉
      (ConfigurationDict.setitem regEmpty ⟨some "filtering", []⟩ "bogus"
        (.vStr "")).2 := by
  decide

/-- C1 (amended): on a checked `ConfigurationDict` (section set and
non-empty), assigning the `None` sentinel or an empty string never stores:
the dictionary is returned unchanged (so its length and all entries are
preserved and an absent key stays absent) and no exception is raised.  For
`None` the bad-value warning is always among the emitted warnings; for the
empty string the empty-key warning is emitted exactly when the key passes
validation, otherwise the validation warnings are emitted instead. -/
theorem C1_sentinel_and_empty_rejected (reg : SchemaRegistry)
    (d : ConfigurationDict) (s : String) (hsec : d.sect = some s)
    (hne : s.data.isEmpty = false) (k : String) :
    ((d.setitem reg k .vNone).1 = d ∧
      WarningKind.badUserConfigurationValue ∈ (d.setitem reg k .vNone).2) ∧
    ((d.setitem reg k (.vStr "")).1 = d ∧
      (d.setitem reg k (.vStr "")).2 =
        (if (verify_section_key reg s (pyLower k)).1
         then [WarningKind.emptyConfigurationKey]
         else (verify_section_key reg s (pyLower k)).2)) := by
  have hstep : ∀ v : Value,
      d.setitem reg k v = d.setitemChecked reg s (pyLower k) v := by
    intro v
    simp only [ConfigurationDict.setitem, hsec, hne, Bool.false_eq_true,
      if_false]
  refine ⟨?_, ?_⟩
  · rw [hstep]
    unfold ConfigurationDict.setitemChecked
    simp [isEmptyStr]
  · rw [hstep]
    unfold ConfigurationDict.setitemChecked
    cases hr : (verify_section_key reg s (pyLower k)).1 with
    | true =>
      have h2 := verify_section_key_valid_no_warnings reg s (pyLower k) hr
      simp [hr, h2, isEmptyStr]
    | false => simp [hr, isEmptyStr]

/-- C1 witness: the amended statement at a registry that knows
`[filtering]: limit events`, on the empty checked dictionary. -/
theorem C1_witness :
    ((ConfigurationDict.setitem regSane ⟨some "filtering", []⟩ "limit events"
        .vNone).1 = ⟨some "filtering", []⟩ ∧
      WarningKind.badUserConfigurationValue ∈
        (ConfigurationDict.setitem regSane ⟨some "filtering", []⟩
          "limit events" .vNone).2) ∧
    ((ConfigurationDict.setitem regSane ⟨some "filtering", []⟩ "limit events"
        (.vStr "")).1 = ⟨some "filtering", []⟩ ∧
      (ConfigurationDict.setitem regSane ⟨some "filtering", []⟩ "limit events"
        (.vStr "")).2 =
        (if (verify_section_key regSane "filtering" (pyLower "limit events")).1
         then [WarningKind.emptyConfigurationKey]
         else (verify_section_key regSane "filtering"
           (pyLower "limit events")).2)) :=
  C1_sentinel_and_empty_rejected regSane ⟨some "filtering", []⟩ "filtering"
    rfl rfl "limit events"

/-- C7: on a checked assignment where the key passes validation, the value
is a non-empty non-sentinel, and the schema declares a type the value does
not satisfy, a wrong-type warning is emitted and the write still happens:
the coerced value is stored under the normalized key. -/
theorem C7_wrong_type_advisory (reg : SchemaRegistry) (d : ConfigurationDict)
    (s k : String) (v : Value) (p : Value → Bool)
    (hsec : d.sect = some s) (hne : s.data.isEmpty = false)
    (hvalid : (verify_section_key reg s (pyLower k)).1 = true)
    (hnes : isEmptyStr v = false) (hnn : v ≠ .vNone)
    (htyp : reg.get_config_value_type s (pyLower k) = some p)
    (hbad : p v = false) :
    d.setitem reg k v =
      (ConfigurationDict.mk d.sect
        (alSet d.data (pyLower k) (reg.get_config_value_func s (pyLower k) v)),
        [WarningKind.wrongConfigurationType]) := by
  have h2 := verify_section_key_valid_no_warnings reg s (pyLower k) hvalid
  simp only [ConfigurationDict.setitem, hsec, hne, Bool.false_eq_true,
    if_false]
  unfold ConfigurationDict.setitemChecked
  simp [hvalid, h2, hnes, hnn, typeCheckOk, htyp, hbad, hsec]

/-- C7 witness: a registry declaring `[setup]: channel width` as a float;
assigning the integer `20` warns about the wrong type but stores anyway. -/
theorem C7_witness :
    ConfigurationDict.setitem regTyped ⟨some "setup", []⟩ "channel width"
      (.vInt 20) =
      (⟨some "setup", [("channel width", .vInt 20)]⟩,
        [WarningKind.wrongConfigurationType]) := by
  have h := C7_wrong_type_advisory regTyped ⟨some "setup", []⟩ "setup"
    "channel width" (.vInt 20) isFloatValue rfl rfl (by decide) (by decide)
    (by decide) rfl rfl
  exact h.trans (by decide)

/-- C8: classification of unknown keys in the "filtering" section: a
`" min"`/`" max"` key is valid exactly when the stripped feature name is a
known scalar feature (otherwise the unknown-filter-range-feature warning);
the key `"limit events auto"` is invalid with the deprecated-key warning
(the interpreter-version guard of the source is constant true on Python 3);
any other key is invalid with the unknown-filtering-key warning. -/
theorem C8_filtering_unknown_key_classification (reg : SchemaRegistry)
    (k : String) (h : reg.config_key_exists "filtering" k = false) :
    ((endsB k " min" || endsB k " max") = true →
      verify_section_key reg "filtering" k =
        (if reg.scalar_feature_exists ⟨k.data.take (k.data.length - 4)⟩
         then (true, []) else (false, [.unknownFilterRangeFeature]))) ∧
    (k = "limit events auto" →
      verify_section_key reg "filtering" k =
        (false, [.deprecatedLimitEventsAuto])) ∧
    ((endsB k " min" || endsB k " max") = false → k ≠ "limit events auto" →
      verify_section_key reg "filtering" k =
        (false, [.unknownFilteringKey])) := by
  unfold verify_section_key
  refine ⟨?_, ?_, ?_⟩
  · intro hmm
    simp [h, hmm]
  · intro hk
    subst hk
    have hm : (endsB "limit events auto" " min" ||
      endsB "limit events auto" " max") = false := by decide
    simp [h, hm]
  · intro hmm hk
    simp [h, hmm, hk]

/-- C8 witness: with the sample registry, `"deform min"` is a valid range
key because `"deform"` is a known scalar feature. -/
theorem C8_witness :
    verify_section_key regSane "filtering" "deform min" = (true, []) := by
  have h := (C8_filtering_unknown_key_classification regSane "deform min"
    (by decide)).1 (by decide)
  exact h.trans (by decide)

/-- C6: formatting the float list `[1.0, 2.0]` under key `"x"` yields the
value string `"[1.000000000000, 2.000000000000]"`, and the heuristic parser
maps that string back to `[1.0, 2.0]` (under any registry: the bracket
branch fires before the registry is consulted). -/
theorem C6_list_round_trip (reg : SchemaRegistry) :
    keyval_typ2str "x" (.vList [.vFloat 1, .vFloat 2]) =
      ("x", "[1.000000000000, 2.000000000000]") ∧
    keyval_str2typ reg "x" (.vStr "[1.000000000000, 2.000000000000]") =
      .ok (some ("x", .vList [.vFloat 1, .vFloat 2])) := by
  exact ⟨by decide, rfl⟩

/-- C5 counterexample: the claim says every malformed line is dropped
silently and `load_from_file` never raises because of one.  On the file
`"[a]\n= 5"`, the line `"= 5"` (empty key, value not schema-known) makes
`keyval_str2typ` fall through and return `None`, and the
`var, val = keyval_str2typ(var, val)` unpacking raises a `TypeError`
(modelled as `.error .noneUnpack`) instead of dropping the line. -/
theorem C5_counterexample :
    load_from_lines regEmpty ["[a]", "= 5"] = .error .noneUnpack := by
  decide

/-- A dropped line leaves the parser state untouched. -/
theorem processLine_dropped (reg : SchemaRegistry) (st : LoadState)
    (l : String) (h : droppedLine l = true) :
    processLine reg st l = .ok st := by
  unfold droppedLine at h
  simp only [Bool.or_eq_true, Bool.and_eq_true, Bool.not_eq_true'] at h
  unfold processLine
  rcases h with h1 | ⟨h2, h34⟩
  · rw [if_pos h1]
  · by_cases h1 : (pyStrip (beforeChar '#' l)).data.isEmpty = true
    · rw [if_pos h1]
    · rw [if_neg h1, if_neg (by rw [h2]; exact Bool.false_ne_true)]
      rcases h34 with h3 | ⟨h3, h4⟩
      · rw [if_pos (by rw [h3]; rfl)]
      · simp only [h3, Bool.not_true, Bool.false_eq_true, if_false]
        rw [if_pos h4]

/-- Inserting a dropped line anywhere leaves the whole parse unchanged. -/
theorem loadLoop_dropped (reg : SchemaRegistry) (l : String)
    (h : droppedLine l = true) (xs ys : List String) (st : LoadState) :
    loadLoop reg st (xs ++ l :: ys) = loadLoop reg st (xs ++ ys) := by
  induction xs generalizing st with
  | nil =>
    simp only [List.nil_append, loadLoop, processLine_dropped reg st l h]
  | cons x xs ih =>
    simp only [List.cons_append, loadLoop]
    cases processLine reg st x with
    | error e => rfl
    | ok st' => exact ih st'

/-- C5 (amended): the parser silently drops comment/blank lines, non-header
lines without an `=` separator, and key lines whose value is empty after
stripping — inserting such a line anywhere in a file never changes the
result.  But `load_from_file` is not total on malformed input: a key line
with a non-empty value appearing before any section header raises
`UnboundLocalError`, and a key line with an empty key and a value unknown
to the schema raises `TypeError` (see the counterexample). -/
theorem C5_malformed_lines_dropped (reg : SchemaRegistry) (xs ys : List String)
    (l : String) (h : droppedLine l = true) :
    load_from_lines reg (xs ++ l :: ys) = load_from_lines reg (xs ++ ys) := by
  unfold load_from_lines
  rw [loadLoop_dropped reg l h]

/-- C5 witness: dropping the separator-free line `"no separator here"` from
a concrete file does not change the parse. -/
theorem C5_witness :
    droppedLine "no separator here" = true ∧
    load_from_lines regEmpty ["[a]", "no separator here", "x = 1"] =
      load_from_lines regEmpty ["[a]", "x = 1"] :=
  ⟨by decide, C5_malformed_lines_dropped regEmpty ["[a]"] ["x = 1"]
    "no separator here" (by decide)⟩

/-- Looking up the key just stored returns the stored value. -/
theorem alGet_alSet_same {α : Type} (l : List (String × α)) (k : String)
    (v : α) : alGet (alSet l k v) k = some v := by
  induction l with
  | nil => simp [alSet, alGet]
  | cons p t ih =>
    obtain ⟨k0, w⟩ := p
    by_cases hp : k0 = k
    · simp [alSet, alGet, hp]
    · simp [alSet, alGet, hp, ih]

/-- Storing under one key does not change lookups under another. -/
theorem alGet_alSet_ne {α : Type} (l : List (String × α)) {k k' : String}
    (v : α) (h : k' ≠ k) : alGet (alSet l k' v) k = alGet l k := by
  induction l with
  | nil => simp [alSet, alGet, h]
  | cons p t ih =>
    obtain ⟨k0, w⟩ := p
    by_cases hp : k0 = k'
    · subst hp
      simp [alSet, alGet, h]
    · simp [alSet, alGet, hp, ih]

/-- C9: reading an absent section whose name is neither schema-known nor
`"user"` provisions nothing and raises a key-lookup error; and on an absent
name that is schema-known or `"user"`, the read auto-provisions exactly an
empty section dictionary (checked unless checks are disabled). -/
theorem C9_unknown_section_lookup (reg : SchemaRegistry) (c : Configuration)
    (s : String) (habs : c.containsSec s = false) :
    (reg.config_keys.contains s = false → s ≠ "user" →
      c.getitem reg s = .error (.keyLookup (pyLower s))) ∧
    ((reg.config_keys.contains s = true ∨ s = "user") →
      c.getitem reg s =
        .ok (⟨if c.disable_checks then none else some s, []⟩,
          c.provision s)) := by
  constructor
  · intro h1 h2
    have hc : (!c.containsSec s &&
        (reg.config_keys.contains s || s == "user")) = false := by
      rw [h1]
      simp [h2]
    have hn : alGet c.cfgData (pyLower s) = none := by
      unfold Configuration.containsSec at habs
      cases halg : alGet c.cfgData (pyLower s) with
      | none => rfl
      | some d => rw [halg] at habs; simp at habs
    simp only [Configuration.getitem, hc, Bool.false_eq_true, if_false, hn]
  · intro h1
    have hc : (!c.containsSec s &&
        (reg.config_keys.contains s || s == "user")) = true := by
      rw [habs, Bool.not_false, Bool.true_and]
      rcases h1 with h | h
      · rw [h, Bool.true_or]
      · subst h
        rw [show ("user" == "user") = true from rfl, Bool.or_true]
    simp only [Configuration.getitem, hc, if_true]
    unfold Configuration.provision
    simp [alGet_alSet_same]

/-- C9 witness: reading the absent, unknown section `"nonsense"` of an
empty configuration raises the key-lookup error. -/
theorem C9_witness :
    Configuration.getitem regSane ⟨[], false⟩ "nonsense" =
      .error (.keyLookup "nonsense") := by
  have h := (C9_unknown_section_lookup regSane ⟨[], false⟩ "nonsense" rfl).1
    rfl (by decide)
  exact h.trans (by decide)

/-- `__getitem__` returns either the provisioned or the unchanged
configuration. -/
theorem Configuration.getitem_state (reg : SchemaRegistry) (c : Configuration)
    (s : String) (d : ConfigurationDict) (c' : Configuration)
    (h : c.getitem reg s = .ok (d, c')) :
    c' = c.provision s ∨ c' = c := by
  simp only [Configuration.getitem] at h
  by_cases hb : (!c.containsSec s &&
      (reg.config_keys.contains s || s == "user")) = true
  · rw [if_pos hb] at h
    left
    cases halg : alGet (c.provision s).cfgData (pyLower s) with
    | none => rw [halg] at h; cases h
    | some d0 => rw [halg] at h; cases h; rfl
  · rw [if_neg hb] at h
    right
    cases halg : alGet c.cfgData (pyLower s) with
    | none => rw [halg] at h; cases h
    | some d0 => rw [halg] at h; cases h; rfl

/-- `__getitem__` never changes the `disable_checks` flag. -/
theorem Configuration.getitem_disable (reg : SchemaRegistry)
    (c : Configuration) (s : String) (d : ConfigurationDict)
    (c' : Configuration) (h : c.getitem reg s = .ok (d, c')) :
    c'.disable_checks = c.disable_checks := by
  rcases Configuration.getitem_state reg c s d c' h with h1 | h1 <;> subst h1
  · rfl
  · rfl

/-- A key assignment never changes the `disable_checks` flag. -/
theorem Configuration.setKV_disable (reg : SchemaRegistry)
    (c : Configuration) (s k : String) (v : Value) (c2 : Configuration)
    (ws : List WarningKind) (h : c.setKV reg s k v = .ok (c2, ws)) :
    c2.disable_checks = c.disable_checks := by
  unfold Configuration.setKV at h
  cases hg : c.getitem reg s with
  | error e => rw [hg] at h; cases h
  | ok p =>
    obtain ⟨d, c'⟩ := p
    rw [hg] at h
    cases h
    exact Configuration.getitem_disable reg c s d c' hg

/-- Default bootstrapping never changes the `disable_checks` flag. -/
theorem Configuration.init_defaults_disable (reg : SchemaRegistry)
    (c : Configuration) (c2 : Configuration) (ws : List WarningKind)
    (h : Configuration._init_default_filter_values reg c = .ok (c2, ws)) :
    c2.disable_checks = c.disable_checks := by
  unfold Configuration._init_default_filter_values at h
  cases h1 : c.setKV reg "filtering" "remove invalid events" (.vBool false) with
  | error e => rw [h1] at h; cases h
  | ok p1 =>
    obtain ⟨ca, w1⟩ := p1
    rw [h1] at h
    dsimp only at h
    cases h2 : ca.setKV reg "filtering" "enable filters" (.vBool true) with
    | error e => rw [h2] at h; cases h
    | ok p2 =>
      obtain ⟨cb, w2⟩ := p2
      rw [h2] at h
      dsimp only at h
      cases h3 : cb.setKV reg "filtering" "limit events" (.vInt 0) with
      | error e => rw [h3] at h; cases h
      | ok p3 =>
        obtain ⟨cc, w3⟩ := p3
        rw [h3] at h
        dsimp only at h
        cases h4 : cc.setKV reg "filtering" "polygon filters" (.vList []) with
        | error e => rw [h4] at h; cases h
        | ok p4 =>
          obtain ⟨cd, w4⟩ := p4
          rw [h4] at h
          dsimp only at h
          cases h5 : cd.setKV reg "filtering" "hierarchy parent"
              (.vStr "none") with
          | error e => rw [h5] at h; cases h
          | ok p5 =>
            obtain ⟨ce, w5⟩ := p5
            rw [h5] at h
            dsimp only at h
            cases h6 : ce.getitem reg "filtering" with
            | error e => rw [h6] at h; cases h
            | ok p6 =>
              obtain ⟨filt, cf⟩ := p6
              rw [h6] at h
              dsimp only at h
              cases h7 : reg.CFG_ANALYSIS_filtering.find?
                  (fun item => !(filt.containsKey item)) with
              | some item => rw [h7] at h; cases h
              | none =>
                rw [h7] at h
                dsimp only at h
                cases h
                calc c2.disable_checks
                    = ce.disable_checks :=
                      Configuration.getitem_disable reg ce "filtering" filt _ h6
                  _ = cd.disable_checks :=
                      Configuration.setKV_disable reg cd _ _ _ ce w5 h5
                  _ = cc.disable_checks :=
                      Configuration.setKV_disable reg cc _ _ _ cd w4 h4
                  _ = cb.disable_checks :=
                      Configuration.setKV_disable reg cb _ _ _ cc w3 h3
                  _ = ca.disable_checks :=
                      Configuration.setKV_disable reg ca _ _ _ cb w2 h2
                  _ = c.disable_checks :=
                      Configuration.setKV_disable reg c _ _ _ ca w1 h1

/-- One update step never changes the `disable_checks` flag. -/
theorem Configuration.updateStep_disable (reg : SchemaRegistry)
    (acc : Configuration × List WarningKind)
    (se : String × List (String × Value)) :
    ((Configuration.updateStep reg acc se).1).disable_checks =
      acc.1.disable_checks := by
  unfold Configuration.updateStep
  cases hb : (!acc.1.containsSec se.1) with
  | false =>
    simp only [hb, Bool.false_eq_true, if_false]
    split <;> rfl
  | true =>
    simp only [hb, if_true]
    split <;> rfl

/-- `update` never changes the `disable_checks` flag. -/
theorem Configuration.update_disable (reg : SchemaRegistry)
    (newcfg : List (String × List (String × Value))) :
    ∀ acc : Configuration × List WarningKind,
      ((newcfg.foldl (Configuration.updateStep reg) acc).1).disable_checks =
        acc.1.disable_checks := by
  induction newcfg with
  | nil => intro acc; rfl
  | cons se rest ih =>
    intro acc
    rw [List.foldl_cons, ih (Configuration.updateStep reg acc se),
      Configuration.updateStep_disable reg acc se]

/-- Loading files never changes the `disable_checks` flag. -/
theorem Configuration.loadFilesLoop_disable (reg : SchemaRegistry)
    (files : List (List String)) :
    ∀ (acc : Configuration × List WarningKind) (c2 : Configuration)
      (ws2 : List WarningKind),
      Configuration.loadFilesLoop reg acc files = .ok (c2, ws2) →
      c2.disable_checks = acc.1.disable_checks := by
  induction files with
  | nil =>
    intro acc c2 ws2 h
    unfold Configuration.loadFilesLoop at h
    cases h
    rfl
  | cons f fs ih =>
    intro acc c2 ws2 h
    unfold Configuration.loadFilesLoop at h
    cases hl : load_from_lines reg f with
    | error e => rw [hl] at h; cases h
    | ok parsed =>
      rw [hl] at h
      have hstep := ih _ c2 ws2 h
      rw [hstep]
      exact Configuration.update_disable reg _ _

/-- Construction hands the `disable_checks` argument through to the result. -/
theorem Configuration.construct_disable (reg : SchemaRegistry)
    (files : List (List String))
    (cfg : List (String × List (String × Value))) (dc : Bool)
    (c2 : Configuration) (ws : List WarningKind)
    (h : Configuration.construct reg files cfg dc = .ok (c2, ws)) :
    c2.disable_checks = dc := by
  unfold Configuration.construct at h
  cases hi : Configuration._init_default_filter_values reg ⟨[], dc⟩ with
  | error e => rw [hi] at h; cases h
  | ok p =>
    obtain ⟨c1, ws1⟩ := p
    rw [hi] at h
    have h1 : c1.disable_checks = dc :=
      Configuration.init_defaults_disable reg ⟨[], dc⟩ c1 ws1 hi
    have h2 := Configuration.loadFilesLoop_disable reg files _ c2 ws h
    rw [h2]
    have h3 : ((Configuration.update reg c1 cfg).1).disable_checks =
        c1.disable_checks := Configuration.update_disable reg cfg (c1, [])
    dsimp only
    rw [h3, h1]

/-- C10: `copy()` always returns a configuration with `disable_checks =
False`, regardless of the original's flag, because the copy re-runs the
constructor without forwarding the flag. -/
theorem C10_copy_reenables_checks (reg : SchemaRegistry) (c : Configuration)
    (c2 : Configuration) (ws : List WarningKind)
    (h : c.copy reg = .ok (c2, ws)) : c2.disable_checks = false := by
  unfold Configuration.copy at h
  exact Configuration.construct_disable reg [] _ false c2 ws h

/-- C10 witness: copying a concrete configuration whose checks are disabled
yields one with checks re-enabled. -/
theorem C10_witness :
    Configuration.copy regSane
      ⟨[("filtering", ⟨some "filtering", defaultFilterEntries⟩)], true⟩ =
      .ok (⟨[("filtering", ⟨some "filtering", defaultFilterEntries⟩)],
        false⟩, []) ∧
    (⟨[("filtering", ⟨some "filtering", defaultFilterEntries⟩)],
      false⟩ : Configuration).disable_checks = false := by
  have h : Configuration.copy regSane
      ⟨[("filtering", ⟨some "filtering", defaultFilterEntries⟩)], true⟩ =
      .ok (⟨[("filtering", ⟨some "filtering", defaultFilterEntries⟩)],
        false⟩, []) := by decide
  exact ⟨h, C10_copy_reenables_checks regSane
    ⟨[("filtering", ⟨some "filtering", defaultFilterEntries⟩)], true⟩
    ⟨[("filtering", ⟨some "filtering", defaultFilterEntries⟩)], false⟩ [] h⟩

/-- `pyLower` fixes the all-lowercase literal `"filtering"`. -/
theorem pyLower_filtering : pyLower "filtering" = "filtering" := by decide

/-- `pyLower` fixes the all-lowercase literal `"setup"`. -/
theorem pyLower_setup : pyLower "setup" = "setup" := by decide

/-- Overwriting a key twice keeps only the second write. -/
theorem alSet_alSet_same {α : Type} (l : List (String × α)) (k : String)
    (a b : α) : alSet (alSet l k a) k b = alSet l k b := by
  induction l with
  | nil => simp [alSet]
  | cons p t ih =>
    obtain ⟨k0, w⟩ := p
    by_cases hp : k0 = k
    · simp [alSet, hp]
    · simp [alSet, hp, ih]

/-- A lookup succeeds exactly when the key is among the stored keys. -/
theorem alGet_isSome_contains {α : Type} (l : List (String × α))
    (x : String) : (alGet l x).isSome = (l.map Prod.fst).contains x := by
  induction l with
  | nil => rfl
  | cons p t ih =>
    obtain ⟨k0, w⟩ := p
    by_cases h : k0 = x
    · subst h
      simp [alGet, List.contains_cons]
    · simp only [alGet, h, if_false, List.map_cons, List.contains_cons, ih,
        Bool.or_eq_true]
      have : (x == k0) = false := by
        rw [beq_eq_false_iff_ne]
        exact fun e => h e.symm
      simp [this]

/-- An unchecked store under one normalized key does not change lookups
under another. -/
theorem ConfigurationDict.setitemUnchecked_getitem_ne (d : ConfigurationDict)
    {k0 k : String} (v : Value) (h : k0 ≠ pyLower k) :
    ((d.setitemUnchecked k0 v).1).getitem k = d.getitem k := by
  unfold ConfigurationDict.setitemUnchecked
  split
  · rfl
  · simp [ConfigurationDict.getitem, alGet_alSet_ne _ v h]

/-- A checked store under one normalized key does not change lookups under
another. -/
theorem ConfigurationDict.setitemChecked_getitem_ne (reg : SchemaRegistry)
    (d : ConfigurationDict) (s : String) {k0 k : String} (v : Value)
    (h : k0 ≠ pyLower k) :
    ((d.setitemChecked reg s k0 v).1).getitem k = d.getitem k := by
  unfold ConfigurationDict.setitemChecked
  dsimp only
  split
  · rfl
  · split
    · rfl
    · split
      · simp [ConfigurationDict.getitem, alGet_alSet_ne _ _ h]
      · rfl

/-- `__setitem__` under one key does not change lookups under a key with a
different normalization. -/
theorem ConfigurationDict.setitem_getitem_ne (reg : SchemaRegistry)
    (d : ConfigurationDict) {k' k : String} (v : Value)
    (h : pyLower k' ≠ pyLower k) :
    ((d.setitem reg k' v).1).getitem k = d.getitem k := by
  obtain ⟨sec, dd⟩ := d
  unfold ConfigurationDict.setitem
  cases sec with
  | none => exact ConfigurationDict.setitemUnchecked_getitem_ne _ v h
  | some s =>
    dsimp only
    split
    · exact ConfigurationDict.setitemUnchecked_getitem_ne _ v h
    · exact ConfigurationDict.setitemChecked_getitem_ne reg _ s v h

/-- `update` with keys all normalizing away from `k` does not change the
lookup under `k`. -/
theorem ConfigurationDict.update_getitem_ne (reg : SchemaRegistry)
    {k : String} :
    ∀ (E : List (String × Value)),
      (∀ p ∈ E, pyLower p.1 ≠ pyLower k) →
      ∀ acc : ConfigurationDict × List WarningKind,
        ((E.foldl (ConfigurationDict.updateStep reg) acc).1).getitem k =
          acc.1.getitem k := by
  intro E
  induction E with
  | nil => intro _ acc; rfl
  | cons p t ih =>
    intro hE acc
    rw [List.foldl_cons,
      ih (fun q hq => hE q (List.mem_cons_of_mem p hq)) _]
    unfold ConfigurationDict.updateStep
    exact ConfigurationDict.setitem_getitem_ne reg acc.1 p.2
      (hE p (List.mem_cons_self p t))

/-- A checked store of a valid key and acceptable value: the coerced value
is stored under the normalized key (the new dictionary state, ignoring
warnings). -/
theorem ConfigurationDict.setitem_stores (reg : SchemaRegistry)
    (d : ConfigurationDict) (s k : String) (v : Value)
    (hsec : d.sect = some s) (hne : s.data.isEmpty = false)
    (hvalid : (verify_section_key reg s (pyLower k)).1 = true)
    (hnes : isEmptyStr v = false) (hnn : v ≠ Value.vNone) :
    (d.setitem reg k v).1 =
      ⟨some s, alSet d.data (pyLower k)
        (reg.get_config_value_func s (pyLower k) v)⟩ := by
  simp only [ConfigurationDict.setitem, hsec, hne, Bool.false_eq_true,
    if_false]
  unfold ConfigurationDict.setitemChecked
  simp [hvalid, hnes, hnn, hsec]

/-- Reading a present section returns it and leaves the configuration
unchanged. -/
theorem Configuration.getitem_present_eval (reg : SchemaRegistry)
    (l : List (String × ConfigurationDict)) (b : Bool) (secName : String)
    (d : ConfigurationDict) (hsecl : pyLower secName = secName)
    (hl : alGet l secName = some d) :
    Configuration.getitem reg ⟨l, b⟩ secName = .ok (d, ⟨l, b⟩) := by
  have hcon : Configuration.containsSec ⟨l, b⟩ secName = true := by
    unfold Configuration.containsSec
    dsimp only
    rw [hsecl, hl]
    rfl
  simp only [Configuration.getitem, hcon, Bool.not_true, Bool.false_and,
    Bool.false_eq_true, if_false]
  rw [hsecl, hl]

/-- Reading an absent schema-known section provisions it empty (checked
when checks are enabled). -/
theorem Configuration.getitem_provision_eval (reg : SchemaRegistry)
    (l : List (String × ConfigurationDict)) (secName : String)
    (hsecl : pyLower secName = secName) (habs : alGet l secName = none)
    (hknown : reg.config_keys.contains secName = true) :
    Configuration.getitem reg ⟨l, false⟩ secName =
      .ok (⟨some secName, []⟩, ⟨alSet l secName ⟨some secName, []⟩, false⟩) := by
  have hcon : Configuration.containsSec ⟨l, false⟩ secName = false := by
    unfold Configuration.containsSec
    dsimp only
    rw [hsecl, habs]
    rfl
  simp only [Configuration.getitem, hcon, hknown, Bool.not_false,
    Bool.true_and, Bool.true_or, if_true]
  unfold Configuration.provision
  dsimp only
  rw [hsecl, alGet_alSet_same]
  rfl

/-- Evaluation of `self[sec][k] = v` on a present checked section with a
valid key and acceptable value. -/
theorem Configuration.setKV_checked_eval (reg : SchemaRegistry)
    (l : List (String × ConfigurationDict)) (secName : String)
    (dd : List (String × Value)) (key : String) (v : Value)
    (hsecl : pyLower secName = secName) (hsecne : secName.data.isEmpty = false)
    (hl : alGet l secName = some ⟨some secName, dd⟩)
    (hkl : pyLower key = key)
    (hvalid : (verify_section_key reg secName key).1 = true)
    (ht : typeCheckOk reg secName key v = true)
    (hnes : isEmptyStr v = false) (hnn : v ≠ Value.vNone) :
    Configuration.setKV reg ⟨l, false⟩ secName key v =
      .ok (⟨alSet l secName ⟨some secName,
        alSet dd key (reg.get_config_value_func secName key v)⟩,
        false⟩, []) := by
  unfold Configuration.setKV
  rw [Configuration.getitem_present_eval reg l false secName _ hsecl hl]
  have hset := ConfigurationDict.setitem_stores reg ⟨some secName, dd⟩
    secName key v rfl hsecne (by rw [hkl]; exact hvalid) hnes hnn
  have hws : (ConfigurationDict.setitem reg ⟨some secName, dd⟩ key v).2 = [] := by
    simp only [ConfigurationDict.setitem, hsecne, Bool.false_eq_true, if_false]
    unfold ConfigurationDict.setitemChecked
    rw [hkl]
    simp [hvalid, verify_section_key_valid_no_warnings reg secName key hvalid,
      hnes, hnn, ht]
  dsimp only
  rw [hset, hws, hkl, hsecl]

/-- Evaluation of `self[sec][k] = v` when the checked section is absent:
it is provisioned and the store lands in the fresh dictionary. -/
theorem Configuration.setKV_provision_eval (reg : SchemaRegistry)
    (l : List (String × ConfigurationDict)) (secName : String)
    (key : String) (v : Value)
    (hsecl : pyLower secName = secName) (hsecne : secName.data.isEmpty = false)
    (habs : alGet l secName = none)
    (hknown : reg.config_keys.contains secName = true)
    (hkl : pyLower key = key)
    (hvalid : (verify_section_key reg secName key).1 = true)
    (ht : typeCheckOk reg secName key v = true)
    (hnes : isEmptyStr v = false) (hnn : v ≠ Value.vNone) :
    Configuration.setKV reg ⟨l, false⟩ secName key v =
      .ok (⟨alSet l secName ⟨some secName,
        [(key, reg.get_config_value_func secName key v)]⟩, false⟩, []) := by
  unfold Configuration.setKV
  rw [Configuration.getitem_provision_eval reg l secName hsecl habs hknown]
  have hset := ConfigurationDict.setitem_stores reg ⟨some secName, []⟩
    secName key v rfl hsecne (by rw [hkl]; exact hvalid) hnes hnn
  have hws : (ConfigurationDict.setitem reg ⟨some secName, []⟩ key v).2 = [] := by
    simp only [ConfigurationDict.setitem, hsecne, Bool.false_eq_true, if_false]
    unfold ConfigurationDict.setitemChecked
    rw [hkl]
    simp [hvalid, verify_section_key_valid_no_warnings reg secName key hvalid,
      hnes, hnn, ht]
  dsimp only
  rw [hset, hws, hkl, hsecl, alSet_alSet_same]
  rfl

/-- `ConfigurationDict.update` with keys all normalizing away from `k` does
not change the lookup under `k` (stated on `update` itself). -/
theorem ConfigurationDict.update_getitem_ne' (reg : SchemaRegistry)
    (d : ConfigurationDict) (E : List (String × Value)) {k : String}
    (hE : ∀ p ∈ E, pyLower p.1 ≠ pyLower k) :
    ((ConfigurationDict.update reg d E).1).getitem k = d.getitem k := by
  unfold ConfigurationDict.update
  exact ConfigurationDict.update_getitem_ne reg E hE (d, [])

/-- One configuration-update step does not change the value seen under
`(s, k)` when the step's section/key pairs avoid `(s, k)` (up to case
normalization). -/
theorem Configuration.updateStep_lookupKV_ne (reg : SchemaRegistry)
    (c0 : Configuration) (ws0 : List WarningKind)
    (se : String × List (String × Value)) (s k : String)
    (hse : pyLower se.1 = pyLower s → ∀ q ∈ se.2, pyLower q.1 ≠ pyLower k) :
    ((Configuration.updateStep reg (c0, ws0) se).1).lookupKV s k =
      c0.lookupKV s k := by
  unfold Configuration.updateStep
  dsimp only
  by_cases hsec : pyLower se.1 = pyLower s
  · have hq := hse hsec
    cases hcon : c0.containsSec se.1 with
    | true =>
      simp only [hcon, Bool.not_true, Bool.false_eq_true, if_false]
      cases halg : alGet c0.cfgData (pyLower se.1) with
      | none => rfl
      | some d =>
        unfold Configuration.lookupKV
        dsimp only
        rw [← hsec, alGet_alSet_same, halg]
        exact ConfigurationDict.update_getitem_ne' reg d se.2 hq
    | false =>
      simp only [hcon, Bool.not_false, if_true]
      unfold Configuration.provision
      dsimp only
      rw [alGet_alSet_same]
      have habs : alGet c0.cfgData (pyLower se.1) = none := by
        unfold Configuration.containsSec at hcon
        cases hg : alGet c0.cfgData (pyLower se.1) with
        | none => rfl
        | some d => rw [hg] at hcon; simp at hcon
      unfold Configuration.lookupKV
      dsimp only
      rw [← hsec, alSet_alSet_same, alGet_alSet_same, habs]
      dsimp only
      rw [ConfigurationDict.update_getitem_ne' reg _ se.2 hq]
      rfl
  · cases hcon : c0.containsSec se.1 with
    | true =>
      simp only [hcon, Bool.not_true, Bool.false_eq_true, if_false]
      cases halg : alGet c0.cfgData (pyLower se.1) with
      | none => rfl
      | some d =>
        unfold Configuration.lookupKV
        dsimp only
        rw [alGet_alSet_ne _ _ hsec]
    | false =>
      simp only [hcon, Bool.not_false, if_true]
      unfold Configuration.provision
      dsimp only
      rw [alGet_alSet_same]
      unfold Configuration.lookupKV
      dsimp only
      rw [alGet_alSet_ne _ _ hsec, alGet_alSet_ne _ _ hsec]

/-- `pyLower` fixes the all-lowercase literal `"channel width"`. -/
theorem pyLower_channel_width : pyLower "channel width" = "channel width" := by
  decide

/-- `pyLower` fixes the all-lowercase literal `"flow rate"`. -/
theorem pyLower_flow_rate : pyLower "flow rate" = "flow rate" := by decide

/-- `update` never changes the value seen under `(s, k)` when the argument
never mentions `(s, k)` (up to case normalization). -/
theorem Configuration.update_lookupKV_ne (reg : SchemaRegistry)
    (s k : String) :
    ∀ (newcfg : List (String × List (String × Value))),
      (∀ se ∈ newcfg, pyLower se.1 = pyLower s →
        ∀ q ∈ se.2, pyLower q.1 ≠ pyLower k) →
      ∀ acc : Configuration × List WarningKind,
        ((newcfg.foldl (Configuration.updateStep reg) acc).1).lookupKV s k =
          acc.1.lookupKV s k := by
  intro newcfg
  induction newcfg with
  | nil => intro _ acc; rfl
  | cons se rest ih =>
    intro h acc
    rw [List.foldl_cons, ih (fun q hq => h q (List.mem_cons_of_mem se hq)) _]
    obtain ⟨c0, ws0⟩ := acc
    exact Configuration.updateStep_lookupKV_ne reg c0 ws0 se s k
      (h se (List.mem_cons_self se rest))

/-- Applying `update` with a single checked section/key/value: the target
section (provisioned if absent) ends up holding the coerced value under the
key, all its other keys unchanged. -/
theorem Configuration.update_single_store (reg : SchemaRegistry)
    (c : Configuration) (secName key : String) (v : Value)
    (hdc : c.disable_checks = false)
    (hsecl : pyLower secName = secName)
    (hsecne : secName.data.isEmpty = false)
    (hkl : pyLower key = key)
    (hsect : ∀ d0, alGet c.cfgData secName = some d0 → d0.sect = some secName)
    (hvalid : (verify_section_key reg secName key).1 = true)
    (hnes : isEmptyStr v = false) (hnn : v ≠ Value.vNone) :
    ∃ D : ConfigurationDict,
      ((Configuration.update reg c [(secName, [(key, v)])]).1).cfgData =
        alSet c.cfgData secName D ∧
      D.sect = some secName ∧
      alGet D.data key = some (reg.get_config_value_func secName key v) ∧
      (∀ x : String, key ≠ x →
        alGet D.data x =
          (match alGet c.cfgData secName with
           | some d0 => alGet d0.data x
           | none => none)) := by
  have hsingle : Configuration.update reg c [(secName, [(key, v)])] =
      Configuration.updateStep reg (c, []) (secName, [(key, v)]) := rfl
  rw [hsingle]
  unfold Configuration.updateStep
  dsimp only
  have hdictupd : ∀ d : ConfigurationDict,
      ConfigurationDict.update reg d [(key, v)] =
        ((d.setitem reg key v).1, [] ++ (d.setitem reg key v).2) := by
    intro d; rfl
  cases hcon : c.containsSec secName with
  | true =>
    simp only [hcon, Bool.not_true, Bool.false_eq_true, if_false]
    rw [hsecl]
    have hex : ∃ d0, alGet c.cfgData secName = some d0 := by
      unfold Configuration.containsSec at hcon
      rw [hsecl] at hcon
      cases hg : alGet c.cfgData secName with
      | none => rw [hg] at hcon; simp at hcon
      | some d0 => exact ⟨d0, rfl⟩
    obtain ⟨d0, hg⟩ := hex
    rw [hg]
    dsimp only
    rw [hdictupd]
    dsimp only
    rw [ConfigurationDict.setitem_stores reg d0 secName key v (hsect d0 hg)
      hsecne (by rw [hkl]; exact hvalid) hnes hnn, hkl]
    refine ⟨⟨some secName,
      alSet d0.data key (reg.get_config_value_func secName key v)⟩,
      rfl, rfl, alGet_alSet_same _ _ _, ?_⟩
    intro x hx
    dsimp only
    rw [alGet_alSet_ne _ _ hx]
  | false =>
    simp only [hcon, Bool.not_false, if_true]
    unfold Configuration.provision
    dsimp only
    rw [hsecl, hdc]
    simp only [Bool.false_eq_true, if_false]
    rw [alGet_alSet_same]
    dsimp only
    rw [hdictupd]
    dsimp only
    rw [ConfigurationDict.setitem_stores reg ⟨some secName, []⟩ secName key v
      rfl hsecne (by rw [hkl]; exact hvalid) hnes hnn, hkl]
    have habs : alGet c.cfgData secName = none := by
      unfold Configuration.containsSec at hcon
      rw [hsecl] at hcon
      cases hg : alGet c.cfgData secName with
      | none => rfl
      | some d0 => rw [hg] at hcon; simp at hcon
    rw [alSet_alSet_same]
    refine ⟨⟨some secName,
      alSet [] key (reg.get_config_value_func secName key v)⟩,
      rfl, rfl, alGet_alSet_same _ _ _, ?_⟩
    intro x hx
    dsimp only
    rw [alGet_alSet_ne _ _ hx, habs]
    rfl

/-- C4: `Configuration.update` merges at the key level.  First conjunct:
keys not mentioned in the update argument (up to case normalization) are
never changed, in any section, so sections are never wholesale-replaced.
Second conjunct: on any checked configuration (sections well-formed, the
two keys schema-valid), `update({"setup": {"channel width": 20}})` followed
by `update({"setup": {"flow rate": 0.16}})` leaves section `"setup"`
containing BOTH keys, with their coerced values. -/
theorem C4_update_is_key_level_merge (reg : SchemaRegistry) :
    (∀ (c : Configuration) (newcfg : List (String × List (String × Value)))
      (s k : String),
      (∀ se ∈ newcfg, pyLower se.1 = pyLower s →
        ∀ q ∈ se.2, pyLower q.1 ≠ pyLower k) →
      ((c.update reg newcfg).1).lookupKV s k = c.lookupKV s k) ∧
    (∀ c : Configuration, c.disable_checks = false →
      (∀ d0, alGet c.cfgData "setup" = some d0 → d0.sect = some "setup") →
      (verify_section_key reg "setup" "channel width").1 = true →
      (verify_section_key reg "setup" "flow rate").1 = true →
      (((c.update reg [("setup", [("channel width", .vInt 20)])]).1.update reg
          [("setup", [("flow rate", .vFloat (mkRat 16 100))])]).1).lookupKV
          "setup" "channel width" =
        some (reg.get_config_value_func "setup" "channel width" (.vInt 20)) ∧
      (((c.update reg [("setup", [("channel width", .vInt 20)])]).1.update reg
          [("setup", [("flow rate", .vFloat (mkRat 16 100))])]).1).lookupKV
          "setup" "flow rate" =
        some (reg.get_config_value_func "setup" "flow rate"
          (.vFloat (mkRat 16 100)))) := by
  constructor
  · intro c newcfg s k h
    unfold Configuration.update
    exact Configuration.update_lookupKV_ne reg s k newcfg h (c, [])
  · intro c hdc hsect hv1 hv2
    obtain ⟨D1, hD1cfg, hD1sect, hD1get, hD1pres⟩ :=
      Configuration.update_single_store reg c "setup" "channel width"
        (.vInt 20) hdc pyLower_setup (by decide) pyLower_channel_width hsect
        hv1 (by decide) (by decide)
    have hu1dc : ((Configuration.update reg c
        [("setup", [("channel width", .vInt 20)])]).1).disable_checks =
        false := by
      have h := Configuration.update_disable reg
        [("setup", [("channel width", .vInt 20)])] (c, [])
      exact h.trans hdc
    have hu1sect : ∀ d0,
        alGet ((Configuration.update reg c
          [("setup", [("channel width", .vInt 20)])]).1).cfgData "setup" =
          some d0 → d0.sect = some "setup" := by
      intro d0 hg
      rw [hD1cfg, alGet_alSet_same] at hg
      cases hg
      exact hD1sect
    obtain ⟨D2, hD2cfg, hD2sect, hD2get, hD2pres⟩ :=
      Configuration.update_single_store reg _ "setup" "flow rate"
        (.vFloat (mkRat 16 100)) hu1dc pyLower_setup (by decide)
        pyLower_flow_rate hu1sect hv2 (by decide) (by decide)
    constructor
    · unfold Configuration.lookupKV
      rw [pyLower_setup, hD2cfg, alGet_alSet_same]
      dsimp only
      unfold ConfigurationDict.getitem
      rw [pyLower_channel_width, hD2pres "channel width" (by decide),
        hD1cfg, alGet_alSet_same]
      exact hD1get
    · unfold Configuration.lookupKV
      rw [pyLower_setup, hD2cfg, alGet_alSet_same]
      dsimp only
      unfold ConfigurationDict.getitem
      rw [pyLower_flow_rate]
      exact hD2get

/-- C4 witness: with the sample registry (identity coercions) and starting
from the freshly constructed configuration, the two successive updates
leave `"setup"` holding both keys. -/
theorem C4_witness :
    (((Configuration.mk [] false).update regSane
        [("setup", [("channel width", .vInt 20)])]).1.update regSane
        [("setup", [("flow rate", .vFloat (mkRat 16 100))])]).1.lookupKV
        "setup" "channel width" =
      some (regSane.get_config_value_func "setup" "channel width"
        (.vInt 20)) ∧
    (((Configuration.mk [] false).update regSane
        [("setup", [("channel width", .vInt 20)])]).1.update regSane
        [("setup", [("flow rate", .vFloat (mkRat 16 100))])]).1.lookupKV
        "setup" "flow rate" =
      some (regSane.get_config_value_func "setup" "flow rate"
        (.vFloat (mkRat 16 100))) :=
  (C4_update_is_key_level_merge regSane).2 ⟨[], false⟩ rfl
    (fun d0 h => by cases h) (by decide) (by decide)

/-- A schema-known pair is valid for `verify_section_key`. -/
theorem verify_section_key_of_exists (reg : SchemaRegistry) (s k : String)
    (h : reg.config_key_exists s k = true) :
    (verify_section_key reg s k).1 = true := by
  unfold verify_section_key
  rw [h]
  rfl

/-- The bootstrapped "filtering" dictionary contains exactly the five
default keys (up to normalization of the probe). -/
theorem defaultFilter_containsKey (item : String) :
    (ConfigurationDict.mk (some "filtering") defaultFilterEntries).containsKey
      item = defaultFilterKeys.contains (pyLower item) := by
  show (alGet defaultFilterEntries (pyLower item)).isSome = _
  rw [alGet_isSome_contains]
  rfl

/-- C2: under a registry that recognizes the "filtering" section and its
five bootstrapped defaults (with coercions fixing the default values and
type checks accepting them), constructing a `Configuration` with no files
and no dictionary yields exactly the "filtering" section holding the five
defaults; and whenever the schema's filtering-analysis key list contains a
key not covered by those defaults, construction fails with the
missing-default error instead of returning. -/
theorem C2_default_bootstrapping (reg : SchemaRegistry)
    (hf : reg.config_keys.contains "filtering" = true)
    (H : ∀ p ∈ defaultFilterEntries,
      reg.config_key_exists "filtering" p.1 = true ∧
      reg.get_config_value_func "filtering" p.1 p.2 = p.2 ∧
      typeCheckOk reg "filtering" p.1 p.2 = true) :
    ((∀ item ∈ reg.CFG_ANALYSIS_filtering, pyLower item ∈ defaultFilterKeys) →
      Configuration.construct reg [] [] false =
        .ok (⟨[("filtering",
          ⟨some "filtering", defaultFilterEntries⟩)], false⟩, [])) ∧
    ((∃ item ∈ reg.CFG_ANALYSIS_filtering, pyLower item ∉ defaultFilterKeys) →
      ∃ j, Configuration.construct reg [] [] false =
        .error (.missingDefault j)) := by
  have H1 := H ("remove invalid events", .vBool false) (by decide)
  have H2 := H ("enable filters", .vBool true) (by decide)
  have H3 := H ("limit events", .vInt 0) (by decide)
  have H4 := H ("polygon filters", .vList []) (by decide)
  have H5 := H ("hierarchy parent", .vStr "none") (by decide)
  have e1 : Configuration.setKV reg ⟨[], false⟩ "filtering"
      "remove invalid events" (.vBool false) =
      .ok (⟨[("filtering", ⟨some "filtering",
        [("remove invalid events", .vBool false)]⟩)], false⟩, []) := by
    have h := Configuration.setKV_provision_eval reg [] "filtering"
      "remove invalid events" (.vBool false) pyLower_filtering (by decide)
      rfl hf (by decide)
      (verify_section_key_of_exists reg "filtering" _ H1.1)
      H1.2.2 (by decide) (by decide)
    rw [H1.2.1] at h
    exact h
  have e2 : Configuration.setKV reg
      ⟨[("filtering", ⟨some "filtering",
        [("remove invalid events", .vBool false)]⟩)], false⟩ "filtering"
      "enable filters" (.vBool true) =
      .ok (⟨[("filtering", ⟨some "filtering",
        [("remove invalid events", .vBool false),
         ("enable filters", .vBool true)]⟩)], false⟩, []) := by
    have h := Configuration.setKV_checked_eval reg
      [("filtering", ⟨some "filtering",
        [("remove invalid events", .vBool false)]⟩)] "filtering"
      [("remove invalid events", .vBool false)] "enable filters"
      (.vBool true) pyLower_filtering (by decide) (by decide) (by decide)
      (verify_section_key_of_exists reg "filtering" _ H2.1)
      H2.2.2 (by decide) (by decide)
    rw [H2.2.1] at h
    exact h
  have e3 : Configuration.setKV reg
      ⟨[("filtering", ⟨some "filtering",
        [("remove invalid events", .vBool false),
         ("enable filters", .vBool true)]⟩)], false⟩ "filtering"
      "limit events" (.vInt 0) =
      .ok (⟨[("filtering", ⟨some "filtering",
        [("remove invalid events", .vBool false),
         ("enable filters", .vBool true),
         ("limit events", .vInt 0)]⟩)], false⟩, []) := by
    have h := Configuration.setKV_checked_eval reg
      [("filtering", ⟨some "filtering",
        [("remove invalid events", .vBool false),
         ("enable filters", .vBool true)]⟩)] "filtering"
      [("remove invalid events", .vBool false),
       ("enable filters", .vBool true)] "limit events"
      (.vInt 0) pyLower_filtering (by decide) (by decide) (by decide)
      (verify_section_key_of_exists reg "filtering" _ H3.1)
      H3.2.2 (by decide) (by decide)
    rw [H3.2.1] at h
    exact h
  have e4 : Configuration.setKV reg
      ⟨[("filtering", ⟨some "filtering",
        [("remove invalid events", .vBool false),
         ("enable filters", .vBool true),
         ("limit events", .vInt 0)]⟩)], false⟩ "filtering"
      "polygon filters" (.vList []) =
      .ok (⟨[("filtering", ⟨some "filtering",
        [("remove invalid events", .vBool false),
         ("enable filters", .vBool true),
         ("limit events", .vInt 0),
         ("polygon filters", .vList [])]⟩)], false⟩, []) := by
    have h := Configuration.setKV_checked_eval reg
      [("filtering", ⟨some "filtering",
        [("remove invalid events", .vBool false),
         ("enable filters", .vBool true),
         ("limit events", .vInt 0)]⟩)] "filtering"
      [("remove invalid events", .vBool false),
       ("enable filters", .vBool true),
       ("limit events", .vInt 0)] "polygon filters"
      (.vList []) pyLower_filtering (by decide) (by decide) (by decide)
      (verify_section_key_of_exists reg "filtering" _ H4.1)
      H4.2.2 (by decide) (by decide)
    rw [H4.2.1] at h
    exact h
  have e5 : Configuration.setKV reg
      ⟨[("filtering", ⟨some "filtering",
        [("remove invalid events", .vBool false),
         ("enable filters", .vBool true),
         ("limit events", .vInt 0),
         ("polygon filters", .vList [])]⟩)], false⟩ "filtering"
      "hierarchy parent" (.vStr "none") =
      .ok (⟨[("filtering",
        ⟨some "filtering", defaultFilterEntries⟩)], false⟩, []) := by
    have h := Configuration.setKV_checked_eval reg
      [("filtering", ⟨some "filtering",
        [("remove invalid events", .vBool false),
         ("enable filters", .vBool true),
         ("limit events", .vInt 0),
         ("polygon filters", .vList [])]⟩)] "filtering"
      [("remove invalid events", .vBool false),
       ("enable filters", .vBool true),
       ("limit events", .vInt 0),
       ("polygon filters", .vList [])] "hierarchy parent"
      (.vStr "none") pyLower_filtering (by decide) (by decide) (by decide)
      (verify_section_key_of_exists reg "filtering" _ H5.1)
      H5.2.2 (by decide) (by decide)
    rw [H5.2.1] at h
    exact h
  have e6 : Configuration.getitem reg
      ⟨[("filtering", ⟨some "filtering", defaultFilterEntries⟩)], false⟩
      "filtering" =
      .ok (⟨some "filtering", defaultFilterEntries⟩,
        ⟨[("filtering", ⟨some "filtering", defaultFilterEntries⟩)],
          false⟩) :=
    Configuration.getitem_present_eval reg _ false "filtering" _
      pyLower_filtering (by decide)
  have hinit : Configuration._init_default_filter_values reg ⟨[], false⟩ =
      (match reg.CFG_ANALYSIS_filtering.find? (fun item =>
          !((ConfigurationDict.mk (some "filtering")
            defaultFilterEntries).containsKey item)) with
       | some item => .error (.missingDefault item)
       | none => .ok (⟨[("filtering",
          ⟨some "filtering", defaultFilterEntries⟩)], false⟩,
          [] ++ [] ++ [] ++ [] ++ [])) := by
    unfold Configuration._init_default_filter_values
    rw [e1]
    dsimp only
    rw [e2]
    dsimp only
    rw [e3]
    dsimp only
    rw [e4]
    dsimp only
    rw [e5]
    dsimp only
    rw [e6]
  constructor
  · intro hcov
    have hfind : reg.CFG_ANALYSIS_filtering.find? (fun item =>
        !((ConfigurationDict.mk (some "filtering")
          defaultFilterEntries).containsKey item)) = none := by
      rw [List.find?_eq_none]
      intro item hitem
      rw [defaultFilter_containsKey]
      have hmem := hcov item hitem
      have : defaultFilterKeys.contains (pyLower item) = true :=
        List.elem_iff.mpr hmem
      rw [this]
      decide
    unfold Configuration.construct
    rw [hinit, hfind]
    rfl
  · intro hex
    obtain ⟨item, hitem, hnot⟩ := hex
    have hsome : (reg.CFG_ANALYSIS_filtering.find? (fun item =>
        !((ConfigurationDict.mk (some "filtering")
          defaultFilterEntries).containsKey item))).isSome = true := by
      rw [List.find?_isSome]
      refine ⟨item, hitem, ?_⟩
      rw [defaultFilter_containsKey]
      have : defaultFilterKeys.contains (pyLower item) = false := by
        cases hcc : defaultFilterKeys.contains (pyLower item) with
        | false => rfl
        | true => exact absurd (List.elem_iff.mp hcc) hnot
      rw [this]
      decide
    obtain ⟨j, hj⟩ := Option.isSome_iff_exists.mp hsome
    refine ⟨j, ?_⟩
    unfold Configuration.construct
    rw [hinit, hj]

/-- C2 witness: with the sample registry, whose filtering-analysis list is
exactly the five defaults, construction succeeds with the bootstrapped
section; with the same registry pointing at the uncovered analysis key
`"bogus key"`, construction fails with the missing-default error. -/
theorem C2_witness :
    Configuration.construct regSane [] [] false =
      .ok (⟨[("filtering",
        ⟨some "filtering", defaultFilterEntries⟩)], false⟩, []) ∧
    (∃ j, Configuration.construct regMissing [] [] false =
      .error (.missingDefault j)) :=
  ⟨(C2_default_bootstrapping regSane (by decide) (by decide)).1 (by decide),
   (C2_default_bootstrapping regMissing (by decide) (by decide)).2
     ⟨"bogus key", by decide, by decide⟩⟩
